import Mathlib

/-!
Shallow embedding of pomod (src/main.rs), a Pomodoro status-bar timer.

Time is modelled as natural numbers of nanoseconds: a `Duration` is a
nanosecond count (Rust `Duration::new(secs, 0)` becomes `durationNew secs 0`),
and an `Instant` is a nanosecond timestamp on a monotonic clock, so
`Instant - Instant` is ordinary truncated subtraction of naturals.
Rust reads `Instant::now()` separately for the subtraction and for the final
`last_poll` update inside one `poll` call; both reads are modelled as the
single `now` argument of the call.

The `state_change_callback : Option<Box<dyn FnMut(TimerState)>>` field is
modelled by a `Bool` recording whether a callback is registered
(`Option::is_some`), together with a ghost field `fired : List TimerState`
that logs, in order, every argument the callback has been invoked with.
`break_counter : u8` is modelled as a `Nat` with the wrap-around of `u8`
addition made explicit as `% 256`.
-/

/-- Rust `Duration`, as a count of nanoseconds. -/
abbrev Duration := Nat

/-- Rust `Instant`, as a monotone nanosecond timestamp. -/
abbrev Instant := Nat

def NANOS_PER_SEC : Nat := 1000000000

/-- `Duration::new(secs, nanos)`. -/
def durationNew (secs nanos : Nat) : Duration := secs * NANOS_PER_SEC + nanos

/-- `Duration::checked_sub`: `some (a - b)` when `b ≤ a`, else `none`. -/
def checked_sub (a b : Duration) : Option Duration :=
  if b ≤ a then some (a - b) else none

def POMODORO_TIME : Nat := 25 * 60

def SHORT_BREAK_TIME : Nat := 5 * 60

def LONG_BREAK_TIME : Nat := 30 * 60

def BREAK_CYCLE : Nat := 4

/-- `enum TimerState`. The source calls the pre-start sentinel `None`
(the spec calls it `Idle`), work phases `Pomodoro` (spec: `Work`). -/
inductive TimerState
  | None
  | Pomodoro
  | ShortBreak
  | LongBreak
deriving DecidableEq, Repr

/-- `TimerState::time`: the nominal duration of each phase. -/
def TimerState.time : TimerState → Duration
  | .None | .Pomodoro => durationNew POMODORO_TIME 0
  | .ShortBreak => durationNew SHORT_BREAK_TIME 0
  | .LongBreak => durationNew LONG_BREAK_TIME 0

/-- `TimerState::next(&mut self, break_counter: &mut u8)`, written as a pure
function returning the new state and the new counter.  `break_counter + 1`
is a `u8` addition, hence the explicit `% 256` before the `% BREAK_CYCLE`
of the source. -/
def TimerState.next : TimerState → Nat → TimerState × Nat
  | .None, bc => (.Pomodoro, bc)
  | .Pomodoro, bc =>
      (if bc < BREAK_CYCLE - 1 then .ShortBreak else .LongBreak,
       ((bc + 1) % 256) % BREAK_CYCLE)
  | .ShortBreak, bc => (.Pomodoro, bc)
  | .LongBreak, bc => (.Pomodoro, bc)

/-- `struct Timer`.  `state_change_callback` records whether a callback is
registered; `fired` is the ghost log of callback invocations. -/
structure Timer where
  running : Bool
  state : TimerState
  state_start_time : Option Instant
  remaining_time : Option Duration
  last_poll : Instant
  break_counter : Nat
  state_change_callback : Bool
  fired : List TimerState
deriving DecidableEq, Repr

/-- `Timer::new`, constructed at instant `now` (`last_poll: Instant::now()`). -/
def Timer.new (now : Instant) : Timer :=
  { running := false
    state := .None
    state_start_time := none
    remaining_time := some TimerState.None.time
    last_poll := now
    break_counter := 0
    state_change_callback := false
    fired := [] }

/-- `Timer::begin_next_state`. -/
def Timer.begin_next_state (t : Timer) : Timer :=
  let p := t.state.next t.break_counter
  { t with state := p.1, break_counter := p.2, remaining_time := some p.1.time }

/-- `Timer::start`, called at instant `now` (`Instant::now()` of the call). -/
def Timer.start (t : Timer) (now : Instant) : Timer :=
  if !t.running then
    let t1 :=
      if t.state_start_time.isNone then
        Timer.begin_next_state { t with state_start_time := some now }
      else t
    { t1 with running := true }
  else t

/-- `Timer::stop`. -/
def Timer.stop (t : Timer) : Timer :=
  if t.running then { t with running := false } else t

/-- `Timer::toggle`, at instant `now`. -/
def Timer.toggle (t : Timer) (now : Instant) : Timer :=
  if !t.running then t.start now else t.stop

/-- `Timer::on_state_change`: installs a callback. -/
def Timer.on_state_change (t : Timer) : Timer :=
  { t with state_change_callback := true }

/-- `Timer::poll` at instant `now`.  Invoking the callback is modelled by
appending its argument (the new state) to the ghost log `fired`. -/
def Timer.poll (t : Timer) (now : Instant) : Timer :=
  let t1 :=
    if t.running then
      match t.remaining_time with
      | none =>
          let t2 := t.begin_next_state
          if t2.state_change_callback then
            { t2 with fired := t2.fired ++ [t2.state] }
          else t2
      | some r =>
          { t with remaining_time := checked_sub r (now - t.last_poll) }
    else t
  { t1 with last_poll := now }

/-- The two signals `main` traps. -/
inductive Signal
  | SIGUSR1
  | SIGUSR2
deriving DecidableEq, Repr

/-- Signal handling of the `main` loop: `SIGUSR1 => timer.toggle()`,
`SIGUSR2 => timer = Timer::new()`.  Note that `main` registers the
`on_state_change` callback once, before the loop, and does not register one
on the fresh timer built for `SIGUSR2`. -/
def handleSignal (t : Timer) (s : Signal) (now : Instant) : Timer :=
  match s with
  | .SIGUSR1 => t.toggle now
  | .SIGUSR2 => Timer.new now

/-- One iteration of the `main` loop at instant `now`: handle the delivered
signal, if any, then `poll`. -/
def mainIter (t : Timer) (s : Option Signal) (now : Instant) : Timer :=
  (match s with
   | some sg => handleSignal t sg now
   | none => t).poll now

/-- A public `Timer` operation, used to quantify over call sequences. -/
inductive Op
  | start (now : Instant)
  | stop
  | toggle (now : Instant)
  | poll (now : Instant)
deriving DecidableEq, Repr

def applyOp (t : Timer) : Op → Timer
  | .start now => t.start now
  | .stop => t.stop
  | .toggle now => t.toggle now
  | .poll now => t.poll now

def applyOps (t : Timer) (ops : List Op) : Timer := ops.foldl applyOp t

/-- A sequence of bare `poll` calls at the given instants. -/
def pollAll (t : Timer) (times : List Instant) : Timer :=
  times.foldl Timer.poll t

/-- One advance step on the (state, break_counter) pair. -/
def advanceStep (p : TimerState × Nat) : TimerState × Nat := p.1.next p.2

/-- The pair reached after `n` advances from the initial `(None, 0)`. -/
def advanceIter (n : Nat) : TimerState × Nat :=
  advanceStep^[n] (TimerState.None, 0)

/-- A fresh timer, with the callback registered, started at instant 0 —
the configuration `main` reaches before its first loop iteration once
`start` has been triggered. -/
def freshStarted : Timer := ((Timer.new 0).on_state_change).start 0

/-! ### Helper lemmas about `poll` and the other operations -/

theorem poll_not_running (t : Timer) (now : Instant) (h : t.running = false) :
    t.poll now = { t with last_poll := now } := by
  simp [Timer.poll, h]

theorem poll_some (t : Timer) (now : Instant) (r : Duration)
    (hrun : t.running = true) (hrem : t.remaining_time = some r) :
    t.poll now =
      { t with
        remaining_time := checked_sub r (now - t.last_poll)
        last_poll := now } := by
  simp [Timer.poll, hrun, hrem]

theorem poll_none (t : Timer) (now : Instant)
    (hrun : t.running = true) (hrem : t.remaining_time = none) :
    t.poll now =
      { t.begin_next_state with
        fired := t.fired ++
          (if t.state_change_callback then [(t.state.next t.break_counter).1] else [])
        last_poll := now } := by
  cases hcb : t.state_change_callback <;>
    simp [Timer.poll, hrun, hrem, Timer.begin_next_state, hcb]

theorem checked_sub_eq_none_iff (a b : Duration) : checked_sub a b = none ↔ a < b := by
  unfold checked_sub
  split
  · rename_i h
    exact ⟨fun hc => Option.noConfusion hc, fun hc => absurd hc (Nat.not_lt.mpr h)⟩
  · rename_i h
    exact ⟨fun _ => Nat.not_le.mp h, fun _ => rfl⟩

theorem start_noop (t : Timer) (now : Instant) (h : t.running = true) :
    t.start now = t := by
  simp [Timer.start, h]

theorem start_running (t : Timer) (now : Instant) : (t.start now).running = true := by
  unfold Timer.start
  split
  · rfl
  · simp_all

theorem stop_eq (t : Timer) : t.stop = { t with running := false } := by
  unfold Timer.stop
  split
  · rfl
  · cases t
    simp_all

theorem freshStarted_eq :
    freshStarted =
      { running := true, state := TimerState.Pomodoro, state_start_time := some 0,
        remaining_time := some (durationNew POMODORO_TIME 0), last_poll := 0,
        break_counter := 0, state_change_callback := true, fired := [] } := by
  rfl

/-! ### Claims -/

/-- C1: the state-advance function satisfies the Pomodoro cycle rule: for
every `break_counter` value (a `u8`), `Idle` (source: `None`) advances to
`Work` (source: `Pomodoro`); `Work` advances to `ShortBreak` if
`break_counter < BREAK_CYCLE - 1` and to `LongBreak` otherwise, and then
`break_counter` becomes `(break_counter + 1) % BREAK_CYCLE`; `ShortBreak`
and `LongBreak` both advance to `Work` with `break_counter` unchanged. -/
theorem C1_next_cycle_rule (bc : Nat) (_hbc : bc < 256) :
    TimerState.None.next bc = (TimerState.Pomodoro, bc) ∧
    (bc < BREAK_CYCLE - 1 →
      TimerState.Pomodoro.next bc = (TimerState.ShortBreak, (bc + 1) % BREAK_CYCLE)) ∧
    (¬ bc < BREAK_CYCLE - 1 →
      TimerState.Pomodoro.next bc = (TimerState.LongBreak, (bc + 1) % BREAK_CYCLE)) ∧
    TimerState.ShortBreak.next bc = (TimerState.Pomodoro, bc) ∧
    TimerState.LongBreak.next bc = (TimerState.Pomodoro, bc) := by
  have hmod : ((bc + 1) % 256) % BREAK_CYCLE = (bc + 1) % BREAK_CYCLE :=
    Nat.mod_mod_of_dvd _ (by decide)
  refine ⟨rfl, fun h => ?_, fun h => ?_, rfl, rfl⟩ <;>
    simp [TimerState.next, h, hmod]

/-- Witness for C1 at `break_counter` 0 and 3. -/
theorem C1_next_cycle_rule_witness :
    TimerState.Pomodoro.next 0 = (TimerState.ShortBreak, 1) ∧
    TimerState.Pomodoro.next 3 = (TimerState.LongBreak, 0) := by
  have h0 := C1_next_cycle_rule 0 (by decide)
  have h3 := C1_next_cycle_rule 3 (by decide)
  exact ⟨(h0.2.1 (by decide)).trans (by decide), (h3.2.2.1 (by decide)).trans (by decide)⟩

/-- C9: the nominal-duration function maps `Work` to 1500 s, `ShortBreak` to
300 s, `LongBreak` to 1800 s, `Idle`'s duration equals `Work`'s, and it is
the initial `remaining_time` of a freshly constructed `Timer`. -/
theorem C9_nominal_durations (now : Instant) :
    TimerState.Pomodoro.time = durationNew 1500 0 ∧
    TimerState.ShortBreak.time = durationNew 300 0 ∧
    TimerState.LongBreak.time = durationNew 1800 0 ∧
    TimerState.None.time = TimerState.Pomodoro.time ∧
    (Timer.new now).remaining_time = some TimerState.None.time :=
  ⟨rfl, rfl, rfl, rfl, rfl⟩

/-- C2: on a running timer whose `remaining_time` is `none`, `poll` advances
the state via the transition function, sets `remaining_time` to `some` of the
new state's nominal duration (no elapsed time is subtracted from it in the
same call), and invokes the registered observer, if any, with the new
state. -/
theorem C2_poll_expired_transitions (t : Timer) (now : Instant)
    (hrun : t.running = true) (hrem : t.remaining_time = none) :
    (t.poll now).state = (t.state.next t.break_counter).1 ∧
    (t.poll now).break_counter = (t.state.next t.break_counter).2 ∧
    (t.poll now).remaining_time = some ((t.state.next t.break_counter).1).time ∧
    (t.poll now).fired =
      t.fired ++
        (if t.state_change_callback then [(t.state.next t.break_counter).1] else []) := by
  rw [poll_none t now hrun hrem]
  simp [Timer.begin_next_state]

/-- A running, expired sample configuration at the end of the break cycle. -/
def expiredSample : Timer :=
  { running := true
    state := TimerState.Pomodoro
    state_start_time := some 0
    remaining_time := none
    last_poll := 100
    break_counter := 3
    state_change_callback := true
    fired := [] }

/-- Witness for C2: a running, expired timer at `break_counter = 3` advances
to `LongBreak`, resets the countdown to 1800 s and fires the observer once. -/
theorem C2_witness :
    (expiredSample.poll 150).state = TimerState.LongBreak ∧
    (expiredSample.poll 150).remaining_time = some (durationNew 1800 0) ∧
    (expiredSample.poll 150).fired = [TimerState.LongBreak] := by
  have h := C2_poll_expired_transitions expiredSample 150 rfl rfl
  exact ⟨h.1.trans (by decide), h.2.2.1.trans (by decide), h.2.2.2.trans (by decide)⟩

/-- C5: on a running timer with `remaining_time = some r`, `poll` subtracts
the elapsed time since `last_poll` with `checked_sub`; if the elapsed time
exceeds `r` the result is `none` (expiry, not an error); the state, the
break counter and the observer log are untouched in this call, and the
transition is performed by the next `poll` call. -/
theorem C5_poll_checked_subtraction (t : Timer) (now : Instant) (r : Duration)
    (hrun : t.running = true) (hrem : t.remaining_time = some r) :
    (t.poll now).remaining_time = checked_sub r (now - t.last_poll) ∧
    (r < now - t.last_poll → (t.poll now).remaining_time = none) ∧
    (t.poll now).state = t.state ∧
    (t.poll now).break_counter = t.break_counter ∧
    (t.poll now).fired = t.fired ∧
    (r < now - t.last_poll → ∀ now2,
      ((t.poll now).poll now2).state = (t.state.next t.break_counter).1 ∧
      ((t.poll now).poll now2).fired =
        t.fired ++
          (if t.state_change_callback then [(t.state.next t.break_counter).1] else [])) := by
  have hp := poll_some t now r hrun hrem
  have hcs : r < now - t.last_poll → checked_sub r (now - t.last_poll) = none :=
    fun h => (checked_sub_eq_none_iff r (now - t.last_poll)).mpr h
  refine ⟨by rw [hp], fun h => by rw [hp]; exact hcs h, by rw [hp], by rw [hp],
    by rw [hp], fun h now2 => ?_⟩
  have h1 : t.poll now = { t with remaining_time := none, last_poll := now } := by
    rw [hp, hcs h]
  rw [h1, poll_none { t with remaining_time := none, last_poll := now } now2 hrun rfl]
  constructor
  · simp [Timer.begin_next_state]
  · simp [Timer.begin_next_state]

/-- Witness for C5: a freshly started timer polled 1501 s later expires
(`remaining_time` becomes `none`), and the next `poll` performs the
transition to `ShortBreak`. -/
theorem C5_witness :
    (freshStarted.poll (durationNew 1501 0)).remaining_time = none ∧
    ((freshStarted.poll (durationNew 1501 0)).poll (durationNew 1501 0)).state
      = TimerState.ShortBreak := by
  have h := C5_poll_checked_subtraction freshStarted (durationNew 1501 0)
    (durationNew POMODORO_TIME 0) rfl rfl
  have hlt : durationNew POMODORO_TIME 0
      < durationNew 1501 0 - freshStarted.last_poll := by decide
  exact ⟨h.2.1 hlt, ((h.2.2.2.2.2 hlt (durationNew 1501 0)).1).trans (by decide)⟩

/-- C10: expiry detection is strict.  On a running timer with
`remaining_time = some r`, a `poll` whose elapsed time is exactly `r` leaves
`some 0` (not `none`); `remaining_time` becomes `none` exactly when the
elapsed time strictly exceeds `r`; and after such an exact-expiry poll, a
further `poll` with zero additional elapsed time performs no transition and
no observer call, leaving `remaining_time = some 0`. -/
theorem C10_strict_expiry (t : Timer) (now : Instant) (r : Duration)
    (hrun : t.running = true) (hrem : t.remaining_time = some r) :
    (now - t.last_poll = r → (t.poll now).remaining_time = some 0) ∧
    ((t.poll now).remaining_time = none ↔ r < now - t.last_poll) ∧
    (now - t.last_poll = r → ∀ now2, now2 - now = 0 →
      ((t.poll now).poll now2).state = t.state ∧
      ((t.poll now).poll now2).fired = t.fired ∧
      ((t.poll now).poll now2).remaining_time = some 0) := by
  have hp := poll_some t now r hrun hrem
  refine ⟨fun he => ?_, ?_, fun he now2 h0 => ?_⟩
  · rw [hp]
    show checked_sub r (now - t.last_poll) = some 0
    rw [he]
    simp [checked_sub]
  · rw [hp]
    show checked_sub r (now - t.last_poll) = none ↔ r < now - t.last_poll
    exact checked_sub_eq_none_iff r (now - t.last_poll)
  · have h1 : t.poll now = { t with remaining_time := some 0, last_poll := now } := by
      rw [hp, he]
      simp [checked_sub]
    rw [h1, poll_some { t with remaining_time := some 0, last_poll := now } now2 0 hrun rfl]
    refine ⟨rfl, rfl, ?_⟩
    show checked_sub 0 (now2 - now) = some 0
    rw [h0]
    simp [checked_sub]

/-- Witness for C10: a freshly started timer polled exactly 1500 s later
keeps `remaining_time = some 0`, and a repeated poll at the same instant
still performs no transition. -/
theorem C10_witness :
    (freshStarted.poll (durationNew 1500 0)).remaining_time = some 0 ∧
    ((freshStarted.poll (durationNew 1500 0)).poll (durationNew 1500 0)).state
      = TimerState.Pomodoro ∧
    ((freshStarted.poll (durationNew 1500 0)).poll (durationNew 1500 0)).fired = [] := by
  have h := C10_strict_expiry freshStarted (durationNew 1500 0)
    (durationNew POMODORO_TIME 0) rfl rfl
  have he : durationNew 1500 0 - freshStarted.last_poll = durationNew POMODORO_TIME 0 := by
    decide
  have h3 := h.2.2 he (durationNew 1500 0) (by decide)
  exact ⟨h.1 he, h3.1.trans (by decide), h3.2.1.trans (by decide)⟩

/-- C6: the advance function never produces `Idle` (`TimerState.None`);
starting from `(Idle, 0)` the repeated-advance sequence is
`Work, ShortBreak, Work, ShortBreak, Work, ShortBreak, Work, LongBreak`
repeating with period 8, while `break_counter` cycles `0,1,2,3,0,…`,
changed (by one, mod `BREAK_CYCLE`) only on `Work -> break` transitions and
never on `break -> Work` (or `Idle -> Work`) transitions. -/
theorem C6_cycle_structure (n : Nat) (s : TimerState) (bc : Nat) :
    (s.next bc).1 ≠ TimerState.None ∧
    [advanceIter 1, advanceIter 2, advanceIter 3, advanceIter 4,
     advanceIter 5, advanceIter 6, advanceIter 7, advanceIter 8] =
      [(TimerState.Pomodoro, 0), (TimerState.ShortBreak, 1),
       (TimerState.Pomodoro, 1), (TimerState.ShortBreak, 2),
       (TimerState.Pomodoro, 2), (TimerState.ShortBreak, 3),
       (TimerState.Pomodoro, 3), (TimerState.LongBreak, 0)] ∧
    advanceIter (n + 9) = advanceIter (n + 1) ∧
    (TimerState.None.next bc).2 = bc ∧
    (TimerState.ShortBreak.next bc).2 = bc ∧
    (TimerState.LongBreak.next bc).2 = bc ∧
    (TimerState.Pomodoro.next bc).2 = (bc + 1) % BREAK_CYCLE := by
  refine ⟨?_, by decide, ?_, rfl, rfl, rfl, Nat.mod_mod_of_dvd _ (by decide)⟩
  · cases s <;> simp [TimerState.next] <;> split <;> simp
  · have h9 : advanceStep^[9] (TimerState.None, 0)
        = advanceStep^[1] (TimerState.None, 0) := by decide
    calc advanceIter (n + 9)
        = advanceStep^[n] (advanceStep^[9] (TimerState.None, 0)) := by
          rw [advanceIter, Function.iterate_add_apply]
      _ = advanceStep^[n] (advanceStep^[1] (TimerState.None, 0)) := by rw [h9]
      _ = advanceIter (n + 1) := by rw [advanceIter, Function.iterate_add_apply]

/-- Witness for C6 at a concrete point: advance 9 equals advance 1, and a
long break at the cycle end hands the counter back to 0. -/
theorem C6_witness :
    (TimerState.LongBreak.next 0).1 ≠ TimerState.None ∧
    advanceIter 10 = advanceIter 2 :=
  ⟨(C6_cycle_structure 1 TimerState.LongBreak 0).1,
   (C6_cycle_structure 1 TimerState.LongBreak 0).2.2.1⟩

/-- C7: `start` is a no-op when already running (so a second `start` without
an intervening `stop` causes no second transition and no observer call); it
never touches the observer log; and on the very first start
(`state_start_time = none`, state still `Idle`) it records the start
timestamp, performs the `Idle -> Work` transition, recomputes
`remaining_time`, and sets `running := true`. -/
theorem C7_start_semantics (t : Timer) (now now2 : Instant) :
    (t.running = true → t.start now = t) ∧
    (t.start now).start now2 = t.start now ∧
    (t.start now).fired = t.fired ∧
    (t.running = false → t.state_start_time = none → t.state = TimerState.None →
      t.start now =
        { t with
          state_start_time := some now
          state := TimerState.Pomodoro
          remaining_time := some TimerState.Pomodoro.time
          running := true }) := by
  refine ⟨start_noop t now, start_noop (t.start now) now2 (start_running t now), ?_, ?_⟩
  · unfold Timer.start Timer.begin_next_state
    split
    · split <;> rfl
    · rfl
  · intro h1 h2 h3
    simp [Timer.start, h1, h2, Timer.begin_next_state, h3, TimerState.next]

/-- Witness for C7: starting a fresh timer performs the silent `Idle -> Work`
transition, and a second `start` changes nothing. -/
theorem C7_witness :
    ((Timer.new 0).on_state_change).start 0 =
      { running := true
        state := TimerState.Pomodoro
        state_start_time := some 0
        remaining_time := some TimerState.Pomodoro.time
        last_poll := 0
        break_counter := 0
        state_change_callback := true
        fired := [] } ∧
    ((((Timer.new 0).on_state_change).start 0).start 7
        = ((Timer.new 0).on_state_change).start 0) ∧
    (((Timer.new 0).on_state_change).start 0).fired = [] := by
  have h := C7_start_semantics ((Timer.new 0).on_state_change) 0 7
  exact ⟨(h.2.2.2 rfl rfl rfl).trans (by decide), h.2.1, h.2.2.1⟩

theorem pollAll_not_running (t : Timer) (times : List Instant) (h : t.running = false) :
    pollAll t times = { t with last_poll := times.foldl (fun _x n => n) t.last_poll } := by
  induction times generalizing t with
  | nil => rfl
  | cons a as ih =>
      have step : pollAll t (a :: as) = pollAll (t.poll a) as := rfl
      rw [step, poll_not_running t a h, ih { t with last_poll := a } h]
      rfl

/-- C8: `stop` only clears the running flag; any sequence of `poll` calls on
a non-running timer leaves `remaining_time`, `state`, the break counter and
the observer log unchanged (only `last_poll` advances); and `stop` followed
by `start` (on a timer that has been started before) resumes with the same
`remaining_time` and state. -/
theorem C8_stop_frame (t : Timer) (times : List Instant) (now : Instant) :
    t.stop = { t with running := false } ∧
    (t.running = false →
      (pollAll t times).remaining_time = t.remaining_time ∧
      (pollAll t times).state = t.state ∧
      (pollAll t times).break_counter = t.break_counter ∧
      (pollAll t times).fired = t.fired) ∧
    (t.state_start_time.isSome = true →
      (t.stop.start now).remaining_time = t.remaining_time ∧
      (t.stop.start now).state = t.state ∧
      (t.stop.start now).running = true) := by
  refine ⟨stop_eq t, fun h => ?_, fun hs => ?_⟩
  · rw [pollAll_not_running t times h]
    exact ⟨rfl, rfl, rfl, rfl⟩
  · obtain ⟨v, hv⟩ := Option.isSome_iff_exists.mp hs
    have hstart : ({ t with running := false } : Timer).start now
        = { t with running := true } := by
      unfold Timer.start
      simp [hv]
    rw [stop_eq t, hstart]
    exact ⟨rfl, rfl, rfl⟩

/-- Witness for C8: a stopped mid-countdown timer is unmoved by two polls
and resumes with the same remaining time. -/
theorem C8_witness :
    (pollAll ((freshStarted.poll (durationNew 100 0)).stop)
        [durationNew 200 0, durationNew 300 0]).remaining_time
      = some (durationNew 1400 0) ∧
    ((((freshStarted.poll (durationNew 100 0)).stop).start
        (durationNew 300 0)).remaining_time = some (durationNew 1400 0)) := by
  have h := C8_stop_frame ((freshStarted.poll (durationNew 100 0)).stop)
    [durationNew 200 0, durationNew 300 0] (durationNew 300 0)
  have h2 := (h.2.1 (by decide)).1
  have h3 := (h.2.2 (by decide)).1
  refine ⟨h2.trans (by decide), ?_⟩
  have hss : ((freshStarted.poll (durationNew 100 0)).stop).stop
      = (freshStarted.poll (durationNew 100 0)).stop := by decide
  rw [← hss] at h3 ⊢
  exact h3.trans (by decide)

theorem start_callback_frame (t : Timer) (now : Instant) :
    (t.start now).state_change_callback = t.state_change_callback ∧
    (t.start now).fired = t.fired := by
  unfold Timer.start Timer.begin_next_state
  constructor
  · split
    · split <;> rfl
    · rfl
  · split
    · split <;> rfl
    · rfl

theorem stop_callback_frame (t : Timer) :
    t.stop.state_change_callback = t.state_change_callback ∧
    t.stop.fired = t.fired := by
  rw [stop_eq t]
  exact ⟨rfl, rfl⟩

theorem poll_no_callback (t : Timer) (now : Instant)
    (h : t.state_change_callback = false) :
    (t.poll now).state_change_callback = false ∧ (t.poll now).fired = t.fired := by
  cases hr : t.running with
  | false =>
      rw [poll_not_running t now hr]
      exact ⟨h, rfl⟩
  | true =>
      cases hm : t.remaining_time with
      | none =>
          rw [poll_none t now hr hm]
          simp [Timer.begin_next_state, h]
      | some r =>
          rw [poll_some t now r hr hm]
          exact ⟨h, rfl⟩

theorem applyOp_no_callback (t : Timer) (o : Op)
    (h : t.state_change_callback = false) :
    (applyOp t o).state_change_callback = false ∧ (applyOp t o).fired = t.fired := by
  cases o with
  | start now =>
      have hf := start_callback_frame t now
      exact ⟨hf.1.trans h, hf.2⟩
  | stop =>
      have hf := stop_callback_frame t
      exact ⟨hf.1.trans h, hf.2⟩
  | toggle now =>
      show ((if !t.running then t.start now else t.stop).state_change_callback = false)
        ∧ (if !t.running then t.start now else t.stop).fired = t.fired
      split
      · have hf := start_callback_frame t now
        exact ⟨hf.1.trans h, hf.2⟩
      · have hf := stop_callback_frame t
        exact ⟨hf.1.trans h, hf.2⟩
  | poll now => exact poll_no_callback t now h

theorem applyOps_no_callback (t : Timer) (ops : List Op)
    (h : t.state_change_callback = false) :
    (applyOps t ops).state_change_callback = false ∧
    (applyOps t ops).fired = t.fired := by
  induction ops generalizing t with
  | nil => exact ⟨h, rfl⟩
  | cons o os ih =>
      have h1 := applyOp_no_callback t o h
      have h2 := ih (applyOp t o) h1.1
      exact ⟨h2.1, h2.2.trans h1.2⟩

/-- C4 counterexample: the `main` loop registers the observer once, before
the loop; on `SIGUSR2` (reset) it only executes `timer = Timer::new()`, so
after the reset iteration no observer is registered — the claim that the
driver re-registers the observer after the reset is false — and a later
expiry-driven transition fires no observer. -/
theorem C4_counterexample :
    (mainIter ((Timer.new 0).on_state_change) (some Signal.SIGUSR2) 5).state_change_callback
      = false ∧
    ((((mainIter ((Timer.new 0).on_state_change) (some Signal.SIGUSR2) 5).start 5).poll
        (durationNew 1501 0)).poll (durationNew 1502 0)).fired = [] ∧
    ((((mainIter ((Timer.new 0).on_state_change) (some Signal.SIGUSR2) 5).start 5).poll
        (durationNew 1501 0)).poll (durationNew 1502 0)).state = TimerState.ShortBreak := by
  refine ⟨rfl, ?_, ?_⟩ <;> decide

/-- C4 (amended): handling a Reset command replaces the `Timer` with a
freshly constructed instance in the exact initial configuration
(`running = false`, state `Idle`, `break_counter = 0`,
`state_start_time = none`); the previously registered observer is discarded
and no longer invoked; the driver does not re-register an observer, so no
operation sequence after the reset ever invokes one. -/
theorem C4_reset_discards_observer (t : Timer) (now : Instant) (ops : List Op) :
    mainIter t (some Signal.SIGUSR2) now = Timer.new now ∧
    (Timer.new now).running = false ∧
    (Timer.new now).state = TimerState.None ∧
    (Timer.new now).break_counter = 0 ∧
    (Timer.new now).state_start_time = none ∧
    (Timer.new now).state_change_callback = false ∧
    (applyOps (mainIter t (some Signal.SIGUSR2) now) ops).fired = [] := by
  have hm : mainIter t (some Signal.SIGUSR2) now = Timer.new now := by
    show (Timer.new now).poll now = Timer.new now
    rw [poll_not_running (Timer.new now) now rfl]
    rfl
  refine ⟨hm, rfl, rfl, rfl, rfl, rfl, ?_⟩
  rw [hm]
  exact (applyOps_no_callback (Timer.new now) ops rfl).2

/-- C3 counterexample: starting a fresh timer and simulating exactly
`nominal_duration(Work)` = 1500 s of elapsed poll time split across two
`poll` calls (750 s + 750 s) leaves the timer still in `Work`
(`Pomodoro`) with `remaining_time = some 0`, and the observer has not
fired — not a break state with one observer call, as the claim states.
`checked_sub` at exactly-zero leaves `some 0`, and the transition is
always deferred to a later poll. -/
theorem C3_counterexample :
    ((freshStarted.poll (durationNew 750 0)).poll (durationNew 1500 0)).state
      = TimerState.Pomodoro ∧
    ((freshStarted.poll (durationNew 750 0)).poll (durationNew 1500 0)).remaining_time
      = some 0 ∧
    ((freshStarted.poll (durationNew 750 0)).poll (durationNew 1500 0)).fired = [] ∧
    TimerState.Pomodoro ≠ TimerState.ShortBreak ∧
    TimerState.Pomodoro ≠ TimerState.LongBreak := by
  refine ⟨?_, ?_, ?_, ?_, ?_⟩ <;> decide

/-- C3 (amended): for a freshly constructed, started timer, after strictly
more than `nominal_duration(Work)` of elapsed poll time split across two
`poll` calls (the first not yet past the deadline), the second poll marks
expiry (`remaining_time = none`) while the state is still `Work` and the
observer has not yet fired; the transition to the break state (here
`ShortBreak`, since `break_counter = 0`) and the single observer call with
that state happen on the third poll. -/
theorem C3_amended_three_polls (a b c : Instant)
    (ha : a ≤ durationNew POMODORO_TIME 0)
    (hab : durationNew POMODORO_TIME 0 < a + b) :
    ((freshStarted.poll a).poll (a + b)).remaining_time = none ∧
    ((freshStarted.poll a).poll (a + b)).state = TimerState.Pomodoro ∧
    ((freshStarted.poll a).poll (a + b)).fired = [] ∧
    (((freshStarted.poll a).poll (a + b)).poll c).state = TimerState.ShortBreak ∧
    (((freshStarted.poll a).poll (a + b)).poll c).fired = [TimerState.ShortBreak] ∧
    (((freshStarted.poll a).poll (a + b)).poll c).remaining_time
      = some TimerState.ShortBreak.time := by
  have hlt : durationNew POMODORO_TIME 0 - a < b :=
    (Nat.sub_lt_iff_lt_add ha).mpr hab
  have hb : ¬ (b ≤ durationNew POMODORO_TIME 0 - a) := Nat.not_le.mpr hlt
  refine ⟨?_, ?_, ?_, ?_, ?_, ?_⟩ <;>
    (rw [freshStarted_eq];
     simp [Timer.poll, Timer.begin_next_state, TimerState.next, checked_sub,
       BREAK_CYCLE, ha, hb, hlt])

/-- Witness for C3 (amended), with 1500 s on the first poll, 1 ns more on
the second, and a third poll 1 s later. -/
theorem C3_witness :
    (((freshStarted.poll (durationNew 1500 0)).poll (durationNew 1500 0 + 1)).poll
        (durationNew 1501 0)).state = TimerState.ShortBreak ∧
    (((freshStarted.poll (durationNew 1500 0)).poll (durationNew 1500 0 + 1)).poll
        (durationNew 1501 0)).fired = [TimerState.ShortBreak] := by
  have h := C3_amended_three_polls (durationNew 1500 0) 1 (durationNew 1501 0)
    (by decide) (by decide)
  exact ⟨h.2.2.2.1, h.2.2.2.2.1⟩

/-- Witness for C4 (amended): resetting a running timer at instant 9 yields
the initial configuration and a later start/poll sequence past expiry fires
no observer. -/
theorem C4_witness :
    mainIter freshStarted (some Signal.SIGUSR2) 9 = Timer.new 9 ∧
    (applyOps (mainIter freshStarted (some Signal.SIGUSR2) 9)
        [Op.start 9, Op.poll (durationNew 1510 0), Op.poll (durationNew 1511 0)]).fired
      = [] := by
  have h := C4_reset_discards_observer freshStarted 9
    [Op.start 9, Op.poll (durationNew 1510 0), Op.poll (durationNew 1511 0)]
  exact ⟨h.1, h.2.2.2.2.2.2⟩

/-- Witness for C9 at a concrete construction instant. -/
theorem C9_witness :
    (Timer.new 42).remaining_time = some TimerState.None.time :=
  (C9_nominal_durations 42).2.2.2.2
